import Mathlib

/-
  Verification development for the PetroX examination backend.

  Shallow embedding of the test-session engine: the data model
  (Course, Question, TestSession, GroupTest), the session lifecycle
  operations (start, submit, detail), group-test materialization, and
  the leaderboard aggregation, translated from the Django views in
  exams/views/sessions.py, exams/views/group_tests.py,
  exams/views/leaderboard.py, exams/views/questions.py, the models in
  exams/models.py and the serializers in exams/serializers.py.

  Conventions: database rows are Lean structures; the database is an
  explicit State record; timestamps are Nat; the random source of
  random.sample is an explicit list of positions into the population
  list; HTTP outcomes are Except values paired with the post-state.
-/

namespace PetroX

/-- Question row (exams/models.py, class Question): course foreign key,
text, options A-D, year tag, correct option (choices A/B/C/D), and a
moderation status among pending, approved, rejected. Metadata columns
(created_at, source_file, uploaded_by) are not needed by any claim and
are omitted. -/
structure Question where
  id : Nat
  courseId : Nat
  questionText : String
  optionA : String
  optionB : String
  optionC : String
  optionD : String
  year : String
  correctOption : String
  status : String
  deriving Repr, DecidableEq

/-- TestSession row (exams/models.py, class TestSession): owner, course,
the many-to-many question snapshot (stored as the list of question ids in
selection order), question_count, start_time (auto), nullable end_time,
duration in seconds, nullable score. -/
structure TestSession where
  id : Nat
  userId : Nat
  courseId : Nat
  questionIds : List Nat
  questionCount : Nat
  startTime : Nat
  endTime : Option Nat
  duration : Nat
  score : Option Nat
  deriving Repr, DecidableEq

/-- Course row (exams/models.py, class Course). -/
structure Course where
  id : Nat
  name : String
  deriving Repr, DecidableEq

/-- GroupTest row (exams/models.py, class GroupTest): scheduling template
with course, question count, duration in minutes and a scheduled start. -/
structure GroupTest where
  id : Nat
  name : String
  courseId : Nat
  questionCount : Nat
  durationMinutes : Nat
  scheduledStart : Nat
  deriving Repr, DecidableEq

/-- The relational store as seen by the session engine: courses,
questions, sessions, and the id the next created session receives. -/
structure State where
  courses : List Course
  questions : List Question
  sessions : List TestSession
  nextSessionId : Nat
  deriving Repr, DecidableEq

/-- Error outcomes of the start path: 404 for an unknown course,
400 for too few approved questions (sessions.py lines 18-24). -/
inductive StartError where
  | notFound
  | insufficientQuestions
  deriving Repr, DecidableEq

/-- Error outcome of the submit and detail paths. The view resolves the
session with get_object_or_404 (sessions.py line 40), so the only failure
is a 404: there is no separate 403 outcome in the code. -/
inductive SubmitError where
  | notFound
  deriving Repr, DecidableEq

/-- HTTP status of a submit outcome: 200 on success, 404 otherwise. -/
def submitHttpStatus (r : Except SubmitError TestSession) : Nat :=
  match r with
  | .error .notFound => 404
  | .ok _ => 200

/-- The approved questions of a course:
course.questions.filter(status='approved') (sessions.py line 19). -/
def approvedQuestions (st : State) (cid : Nat) : List Question :=
  st.questions.filter fun q => q.courseId == cid && q.status == "approved"

/-- Model of random.sample(l, k): the random source is a list of k
distinct positions into l, and the sample is the rows at those
positions. Any draw random.sample can produce is some such idxs. -/
def randSample (l : List Question) (idxs : List Nat) : List Question :=
  idxs.filterMap fun i => l[i]?

/-- StartTestAPIView.post (sessions.py lines 13-34): resolve the course
(404 on failure), list the approved questions, reject with 400 if fewer
than requested, otherwise sample, create the session with score and
end_time unset, freeze the sample into the many-to-many snapshot. -/
def startSession (st : State) (uid cid count duration now : Nat)
    (idxs : List Nat) : State × Except StartError TestSession :=
  if st.courses.any (fun c => c.id == cid) then
    let qs := approvedQuestions st cid
    if count > qs.length then
      (st, .error .insufficientQuestions)
    else
      let chosen := randSample qs idxs
      let sess : TestSession :=
        { id := st.nextSessionId, userId := uid, courseId := cid
          questionIds := chosen.map (fun q => q.id)
          questionCount := chosen.length
          startTime := now, endTime := none
          duration := duration, score := none }
      ({ st with sessions := st.sessions ++ [sess]
                 nextSessionId := st.nextSessionId + 1 },
       .ok sess)
  else
    (st, .error .notFound)

/-- The question rows of the frozen snapshot, resolved against the
question table (session.questions.all()). -/
def sessionQuestions (st : State) (s : TestSession) : List Question :=
  s.questionIds.filterMap fun qid => st.questions.find? (fun q => q.id == qid)

/-- Lookup of answers.get(str(q.id), ''): the submitted answers are a map
from question id to chosen letter; a missing key yields the empty
string (sessions.py line 46). -/
def lookupAnswer (answers : List (Nat × String)) (qid : Nat) : String :=
  match answers.find? (fun p => p.1 == qid) with
  | some p => p.2
  | none => ""

/-- Model of the Python str.upper() primitive: character-wise uppercase
over the character list (option letters and answers are ASCII). -/
def upper (s : String) : String := String.mk (s.data.map Char.toUpper)

/-- The per-question comparison of sessions.py line 46:
str(answers.get(str(q.id), '')).upper() == q.correct_option.upper(). -/
def gradeQuestion (answers : List (Nat × String)) (q : Question) : Bool :=
  upper (lookupAnswer answers q.id) == upper q.correctOption

/-- The scoring loop of sessions.py lines 44-47: count of frozen
questions whose submitted answer matches case-insensitively. -/
def computeScore (st : State) (s : TestSession)
    (answers : List (Nat × String)) : Nat :=
  (sessionQuestions st s).countP (gradeQuestion answers)

/-- SubmitTestAPIView.post (sessions.py lines 39-54): resolve the session
by id AND owner with get_object_or_404 (so a wrong owner gets the same
404 as an unknown id), recompute the score over the frozen snapshot,
unconditionally overwrite score and end_time, save. -/
def submitSession (st : State) (sid uid : Nat)
    (answers : List (Nat × String)) (now : Nat) :
    State × Except SubmitError TestSession :=
  match st.sessions.find? (fun s => s.id == sid && s.userId == uid) with
  | none => (st, .error .notFound)
  | some s =>
    let s' : TestSession :=
      { s with score := some (computeScore st s answers), endTime := some now }
    ({ st with sessions := st.sessions.map fun t => if t.id == s.id then s' else t },
     .ok s')

/-- AddQuestionAPIView.post (questions.py lines 18-25): insert a question
row. Sessions are untouched. -/
def addQuestion (st : State) (q : Question) : State :=
  { st with questions := st.questions ++ [q] }

/-- Error outcomes of QuestionApprovalView.patch. -/
inductive PatchError where
  | notFound
  | invalidStatus
  deriving Repr, DecidableEq

/-- QuestionApprovalView.patch (questions.py lines 43-63): 404 for an
unknown question, 400 unless the new status is approved or rejected,
otherwise update the status of that question row. Sessions are
untouched. -/
def setQuestionStatus (st : State) (qid : Nat) (newStatus : String) :
    State × Except PatchError Unit :=
  if st.questions.any (fun q => q.id == qid) then
    if newStatus == "approved" || newStatus == "rejected" then
      ({ st with questions := st.questions.map fun q =>
          if q.id == qid then { q with status := newStatus } else q },
       .ok ())
    else
      (st, .error .invalidStatus)
  else
    (st, .error .notFound)

/-- QuestionSerializer (serializers.py lines 51-54): a ModelSerializer
with fields set to all columns of Question, so the payload of a question
includes its correct_option and status. (serializers.py later rebinds
the name QuestionSerializer for SpecialQuestion at line 96, but
TestSessionSerializer captured this class at its own definition time at
line 58, so session payloads use this one.) Each field is rendered as a
key-value pair; unmodelled metadata columns are omitted. -/
def serializeQuestion (q : Question) : List (String × String) :=
  [("id", toString q.id),
   ("course", toString q.courseId),
   ("question_text", q.questionText),
   ("option_a", q.optionA),
   ("year", q.year),
   ("option_b", q.optionB),
   ("option_c", q.optionC),
   ("option_d", q.optionD),
   ("correct_option", q.correctOption),
   ("status", q.status)]

/-- The shape of TestSessionSerializer output (serializers.py lines
57-61): id, user, course, nested questions, start_time, end_time, score,
duration, question_count. -/
structure SessionPayload where
  id : Nat
  userId : Nat
  courseId : Nat
  questions : List (List (String × String))
  startTime : Nat
  endTime : Option Nat
  score : Option Nat
  duration : Nat
  questionCount : Nat
  deriving Repr, DecidableEq

/-- TestSessionSerializer (serializers.py lines 57-61): serialize the
session with its question snapshot nested through QuestionSerializer. -/
def serializeSession (st : State) (s : TestSession) : SessionPayload :=
  { id := s.id, userId := s.userId, courseId := s.courseId
    questions := (sessionQuestions st s).map serializeQuestion
    startTime := s.startTime, endTime := s.endTime, score := s.score
    duration := s.duration, questionCount := s.questionCount }

/-- The HTTP body of StartTestAPIView.post on its 201 path
(sessions.py lines 33-34): the created session through
TestSessionSerializer, serialized against the post-state. -/
def startResponse (st : State) (uid cid count duration now : Nat)
    (idxs : List Nat) : Except StartError SessionPayload :=
  let r := startSession st uid cid count duration now idxs
  r.2.map fun s => serializeSession r.1 s

/-- TestSessionDetailAPIView (sessions.py lines 65-68): queryset is all
sessions, looked up by id, rendered with TestSessionSerializer. The view
declares no ownership filter, so the requesting user uid plays no role
in the lookup. -/
def sessionDetail (st : State) (sid : Nat) (uid : Nat) :
    Except SubmitError SessionPayload :=
  match st.sessions.find? (fun s => s.id == sid) with
  | none => .error .notFound
  | some s => .ok (serializeSession st s)

/-- The per-question dictionary built by GroupTestDetailAPIView.get at
group_tests.py lines 135-144: id, text and the four options only; no
correct_option key is emitted on this path. -/
def serializeGroupQuestion (q : Question) : List (String × String) :=
  [("id", toString q.id),
   ("question_text", q.questionText),
   ("option_a", q.optionA),
   ("option_b", q.optionB),
   ("option_c", q.optionC),
   ("option_d", q.optionD)]

/-- The question-list part of the GroupTestDetailAPIView response:
the questions key and the session_id key (group_tests.py lines 146-150).
The static template fields (name, course, scheduled_start) carry no
claim content and are omitted. -/
structure GroupPayload where
  questions : List (List (String × String))
  sessionId : Option Nat
  deriving Repr, DecidableEq

/-- GroupTestDetailAPIView.get (group_tests.py lines 99-152): before the
scheduled start return an empty question list and create nothing; at or
after it, list the approved questions of the course of the template,
400 if fewer than question_count, otherwise sample question_count of
them, create a session with duration_minutes * 60 seconds, freeze the
sample, and return the sampled questions (options only) with the new
session id. -/
def groupTestGet (st : State) (gt : GroupTest) (uid now : Nat)
    (idxs : List Nat) : State × Except StartError GroupPayload :=
  if now ≥ gt.scheduledStart then
    let qs := approvedQuestions st gt.courseId
    if qs.length < gt.questionCount then
      (st, .error .insufficientQuestions)
    else
      let chosen := randSample qs idxs
      let sess : TestSession :=
        { id := st.nextSessionId, userId := uid, courseId := gt.courseId
          questionIds := chosen.map (fun q => q.id)
          questionCount := gt.questionCount
          startTime := now, endTime := none
          duration := gt.durationMinutes * 60, score := none }
      ({ st with sessions := st.sessions ++ [sess]
                 nextSessionId := st.nextSessionId + 1 },
       .ok { questions := chosen.map serializeGroupQuestion
             sessionId := some sess.id })
  else
    (st, .ok { questions := [], sessionId := none })

/-- The sessions of one user: testsession set of that user. -/
def userSessions (st : State) (uid : Nat) : List TestSession :=
  st.sessions.filter fun s => s.userId == uid

/-- Sum('testsession__question_count') for one user, with SQL SUM
semantics: NULL over an empty row set, the plain sum otherwise
(question_count itself is never NULL). -/
def totalQuestionsOf (st : State) (uid : Nat) : Option Nat :=
  let l := userSessions st uid
  if l.isEmpty then none else some ((l.map (fun s => s.questionCount)).sum)

/-- Sum('testsession__score') for one user, with SQL SUM semantics: NULL
rows are skipped and the sum is NULL when no non-NULL score exists. -/
def totalScoreOf (st : State) (uid : Nat) : Option Nat :=
  let scores := (userSessions st uid).filterMap fun s => s.score
  if scores.isEmpty then none else some scores.sum

/-- The annotated expression total_score * 100.0 / total_questions
(leaderboard.py lines 20-23 and 45-48), with SQL NULL propagation when
total_score is NULL; the float arithmetic is modelled exactly over the
rationals. -/
def avgScoreOf (st : State) (uid : Nat) : Option ℚ :=
  match totalScoreOf st uid, totalQuestionsOf st uid with
  | some ts, some tq => some ((ts : ℚ) * 100 / (tq : ℚ))
  | _, _ => none

/-- The shared queryset filter of both leaderboard views
(leaderboard.py lines 16-18 and 41-43): keep the users whose
total_questions annotation is non-NULL and positive. -/
def eligibleUsers (st : State) (userIds : List Nat) : List Nat :=
  userIds.filter fun u =>
    match totalQuestionsOf st u with
    | some n => decide (0 < n)
    | none => false

/-- One row of the leaderboard response (leaderboard.py lines 26-31). -/
structure LBEntry where
  userId : Nat
  avgScore : Option ℚ
  testsTaken : Nat
  deriving Repr, DecidableEq

/-- Descending comparison on nullable averages used to model ORDER BY
'-avg_score' (a NULL average sorts below every number here; relational
backends place NULLs at one end or the other, which no claim depends
on). -/
def avgLe (a b : Option ℚ) : Bool :=
  match a, b with
  | none, _ => true
  | some _, none => false
  | some x, some y => decide (x ≤ y)

/-- Insert an entry into a list sorted by descending average. -/
def insertDesc (e : LBEntry) : List LBEntry → List LBEntry
  | [] => [e]
  | x :: xs => if avgLe x.avgScore e.avgScore then e :: x :: xs
               else x :: insertDesc e xs

/-- Insertion sort by descending average, modelling ORDER BY
'-avg_score'. -/
def sortDesc : List LBEntry → List LBEntry
  | [] => []
  | x :: xs => insertDesc x (sortDesc xs)

/-- LeaderboardAPIView.get (leaderboard.py lines 12-33): annotate every
user, keep those with positive non-NULL total_questions, compute the
average, order by descending average, take the top ten, and render id,
average and tests_taken. -/
def leaderboard (st : State) (userIds : List Nat) : List LBEntry :=
  (sortDesc ((eligibleUsers st userIds).map fun u =>
    { userId := u, avgScore := avgScoreOf st u
      testsTaken := (userSessions st u).length })).take 10

/-- The ranked id list of user_rank (leaderboard.py lines 38-51): same
filter and annotation, ordered by descending average (the ascending-id
tiebreak does not affect membership, which is all any claim uses). -/
def rankedUserIds (st : State) (userIds : List Nat) : List Nat :=
  (sortDesc ((eligibleUsers st userIds).map fun u =>
    { userId := u, avgScore := avgScoreOf st u
      testsTaken := (userSessions st u).length })).map fun e => e.userId

/-
  Helper lemmas about the embedded operations.
-/

/-- Eliminate a successful index lookup into its bound and value. -/
theorem getElem?_some_spec {α : Type} {l : List α} {i : Nat} {x : α}
    (h : l[i]? = some x) : ∃ hh : i < l.length, l.get ⟨i, hh⟩ = x := by
  have hlen : i < l.length := by
    by_contra hc
    push_neg at hc
    rw [List.getElem?_eq_none hc] at h
    cases h
  refine ⟨hlen, ?_⟩
  rw [List.getElem?_eq_getElem hlen] at h
  rw [List.get_eq_getElem]
  exact Option.some.inj h

/-- Unfolding of randSample on a position inside the population. -/
theorem randSample_cons_some {l : List Question} {i : Nat} {q : Question}
    (h : l[i]? = some q) (is : List Nat) :
    randSample l (i :: is) = q :: randSample l is := by
  simp [randSample, List.filterMap_cons, h]

/-- A sample over in-range positions has as many rows as positions. -/
theorem randSample_length {l : List Question} {idxs : List Nat}
    (h : ∀ i ∈ idxs, i < l.length) :
    (randSample l idxs).length = idxs.length := by
  induction idxs with
  | nil => rfl
  | cons i is ih =>
    have hi : i < l.length := h i (List.mem_cons_self i is)
    rw [randSample_cons_some (List.getElem?_eq_getElem hi)]
    simp only [List.length_cons]
    rw [ih (fun j hj => h j (List.mem_cons_of_mem i hj))]

/-- Every sampled row comes from the population. -/
theorem mem_randSample {l : List Question} {idxs : List Nat} {q : Question}
    (h : q ∈ randSample l idxs) : q ∈ l := by
  rcases List.mem_filterMap.mp h with ⟨i, _, hget⟩
  exact List.getElem?_mem hget

/-- Two positions of a list with pairwise distinct ids holding rows with
the same id are the same position. -/
theorem getElem_id_inj {l : List Question}
    (hl : (l.map (fun q => q.id)).Nodup)
    {i j : Nat} (hi : i < l.length) (hj : j < l.length)
    (h : (l.get ⟨i, hi⟩).id = (l.get ⟨j, hj⟩).id) : i = j := by
  have hi' : i < (l.map (fun q => q.id)).length := by simpa using hi
  have hj' : j < (l.map (fun q => q.id)).length := by simpa using hj
  have hmap : (l.map (fun q => q.id)).get ⟨i, hi'⟩ =
      (l.map (fun q => q.id)).get ⟨j, hj'⟩ := by
    simp only [List.get_eq_getElem, List.getElem_map]
    exact h
  have hfin := (List.Nodup.get_inj_iff hl).mp hmap
  exact congrArg Fin.val hfin

/-- A sample at distinct in-range positions of a population with
pairwise distinct ids has pairwise distinct ids. -/
theorem randSample_ids_nodup {l : List Question} {idxs : List Nat}
    (hl : (l.map (fun q => q.id)).Nodup) (hn : idxs.Nodup)
    (hb : ∀ i ∈ idxs, i < l.length) :
    ((randSample l idxs).map (fun q => q.id)).Nodup := by
  induction idxs with
  | nil => simp [randSample]
  | cons i is ih =>
    have hi : i < l.length := hb i (List.mem_cons_self i is)
    have hbi : ∀ j ∈ is, j < l.length :=
      fun j hj => hb j (List.mem_cons_of_mem i hj)
    rw [randSample_cons_some (List.getElem?_eq_getElem hi)]
    rw [List.map_cons, List.nodup_cons]
    refine ⟨?_, ih (List.Nodup.of_cons hn) hbi⟩
    intro hmem
    rcases List.mem_map.mp hmem with ⟨q, hq, hid⟩
    rcases List.mem_filterMap.mp hq with ⟨j, hjmem, hget⟩
    rcases getElem?_some_spec hget with ⟨hjlen, hqeq⟩
    have hij : i = j := by
      refine getElem_id_inj hl hi hjlen ?_
      rw [hqeq, List.get_eq_getElem]
      exact hid.symm
    exact (List.nodup_cons.mp hn).1 (hij ▸ hjmem)

/-- Membership in the approved-question list decomposed. -/
theorem mem_approvedQuestions {st : State} {cid : Nat} {q : Question}
    (h : q ∈ approvedQuestions st cid) :
    q ∈ st.questions ∧ q.courseId = cid ∧ q.status = "approved" := by
  rcases List.mem_filter.mp h with ⟨hmem, hp⟩
  rw [Bool.and_eq_true, beq_iff_eq, beq_iff_eq] at hp
  exact ⟨hmem, hp.1, hp.2⟩

/-- The approved-question list inherits pairwise distinct ids from the
question table. -/
theorem approvedQuestions_ids_nodup {st : State}
    (h : (st.questions.map (fun q => q.id)).Nodup) (cid : Nat) :
    ((approvedQuestions st cid).map (fun q => q.id)).Nodup :=
  h.sublist ((List.filter_sublist st.questions).map (fun q => q.id))

/-- Concrete question rows used by the concrete-run theorems below. -/
def demoQuestion (qid cid : Nat) (co : String) (stat : String) : Question :=
  { id := qid, courseId := cid, questionText := "q", optionA := "x"
    optionB := "y", optionC := "z", optionD := "w", year := "2019"
    correctOption := co, status := stat }

/-- A concrete session frozen on three questions, used by the
concrete-run theorems below. -/
def demoSession : TestSession :=
  { id := 5, userId := 7, courseId := 1, questionIds := [10, 11, 12]
    questionCount := 3, startTime := 0, endTime := none
    duration := 600, score := none }

/-- A concrete store: one course of three approved questions, one
unsubmitted session of user 7 frozen on them. -/
def demoState : State :=
  { courses := [{ id := 1, name := "Algebra" }]
    questions :=
      [demoQuestion 10 1 "A" "approved",
       demoQuestion 11 1 "C" "approved",
       demoQuestion 12 1 "B" "approved"]
    sessions := [demoSession]
    nextSessionId := 6 }

/-- The score as the spec words it, for comparison with the code: the
number of frozen questions whose entry in the answer map equals the
correct option case-insensitively, where a question with no entry is
counted incorrect outright (rather than compared as an empty string). -/
def specScore (qs : List Question) (answers : List (Nat × String)) : Nat :=
  qs.countP fun q =>
    match answers.find? (fun p => p.1 == q.id) with
    | some p => upper p.2 == upper q.correctOption
    | none => false

/-- A correct option drawn from the A-D choice set. -/
def validOption (s : String) : Prop :=
  s = "A" ∨ s = "B" ∨ s = "C" ∨ s = "D"

instance instDecidableValidOption (s : String) : Decidable (validOption s) := by
  unfold validOption
  infer_instance

/-- The scoring loop of the code agrees with the spec formula whenever
every frozen question carries one of the four legal correct options
(the model constraint of Question.correct_option): the code compares a
missing answer as the empty string, which never matches a legal
option. -/
theorem computeScore_eq_specScore (st : State) (s : TestSession)
    (answers : List (Nat × String))
    (hco : ∀ q ∈ sessionQuestions st s, validOption q.correctOption) :
    computeScore st s answers = specScore (sessionQuestions st s) answers := by
  unfold computeScore specScore
  apply List.countP_congr
  intro q hq
  rcases hfa : answers.find? (fun p => p.1 == q.id) with _ | p
  · simp only [gradeQuestion, lookupAnswer, hfa]
    rcases hco q hq with h | h | h | h <;>
      simp [h, upper, beq_iff_eq, String.ext_iff]
  · simp [gradeQuestion, lookupAnswer, hfa]

/-- Claim C1: for every session with frozen questions Q and submitted
answer map A, a successful submit sets the score to the number of
questions in Q whose entry in A equals the correct option
case-insensitively; questions without an entry count as incorrect, and
keys of A outside Q contribute nothing (the loop runs over Q only). -/
theorem submit_scores_case_insensitive_match_count
    (st : State) (sid uid now : Nat) (answers : List (Nat × String))
    (s : TestSession)
    (hfind : st.sessions.find? (fun t => t.id == sid && t.userId == uid) = some s)
    (hco : ∀ q ∈ sessionQuestions st s, validOption q.correctOption) :
    (submitSession st sid uid answers now).2 =
      .ok { s with score := some (specScore (sessionQuestions st s) answers)
                   endTime := some now } := by
  simp only [submitSession, hfind]
  rw [computeScore_eq_specScore st s answers hco]

/-- Concrete run of the C1 theorem: a session frozen on three questions,
one answered correctly in lowercase, one answered wrong, one unanswered,
scores exactly 1. -/
theorem submit_scores_case_insensitive_match_count_witness :
    (submitSession demoState 5 7 [(10, "a"), (11, "B")] 100).2 =
      .ok { id := 5, userId := 7, courseId := 1, questionIds := [10, 11, 12]
            questionCount := 3, startTime := 0, endTime := some 100
            duration := 600, score := some 1 } := by
  rw [submit_scores_case_insensitive_match_count demoState 5 7 100
        [(10, "a"), (11, "B")] demoSession (by decide) (by decide)]
  rfl

/-- Claim C3: for a course with N approved questions and a requested
count k with 0 < k and k at most N, starting a session appends exactly
one new session whose frozen snapshot has exactly k pairwise distinct
question ids, each the id of an approved question of that course, and
whose score and end_time are unset. Quantifying over every admissible
sample position list covers every draw random.sample can produce. -/
theorem start_creates_k_distinct_approved_questions
    (st : State) (uid cid k duration now : Nat) (idxs : List Nat)
    (hcourse : st.courses.any (fun c => c.id == cid) = true)
    (hids : (st.questions.map (fun q => q.id)).Nodup)
    (hkpos : 0 < k)
    (hkN : k ≤ (approvedQuestions st cid).length)
    (hlen : idxs.length = k) (hnd : idxs.Nodup)
    (hbound : ∀ i ∈ idxs, i < (approvedQuestions st cid).length) :
    ∃ sess : TestSession,
      startSession st uid cid k duration now idxs =
        ({ st with sessions := st.sessions ++ [sess]
                   nextSessionId := st.nextSessionId + 1 }, .ok sess) ∧
      sess.questionIds.length = k ∧
      sess.questionIds.Nodup ∧
      (∀ qid ∈ sess.questionIds, ∃ q ∈ st.questions,
        q.id = qid ∧ q.status = "approved" ∧ q.courseId = cid) ∧
      sess.score = none ∧ sess.endTime = none := by
  refine ⟨{ id := st.nextSessionId, userId := uid, courseId := cid
            questionIds := (randSample (approvedQuestions st cid) idxs).map
              (fun q => q.id)
            questionCount := (randSample (approvedQuestions st cid) idxs).length
            startTime := now, endTime := none, duration := duration
            score := none }, ?_, ?_, ?_, ?_, rfl, rfl⟩
  · simp only [startSession, hcourse, if_true]
    rw [if_neg (Nat.not_lt.mpr hkN)]
  · rw [List.length_map, randSample_length hbound, hlen]
  · exact randSample_ids_nodup (approvedQuestions_ids_nodup hids cid) hnd hbound
  · intro qid hqid
    rcases List.mem_map.mp hqid with ⟨q, hq, rfl⟩
    rcases mem_approvedQuestions (mem_randSample hq) with ⟨h1, h2, h3⟩
    exact ⟨q, h1, rfl, h3, h2⟩

/-- Concrete run of the C3 theorem: drawing two of the three approved
questions of the demo course. -/
theorem start_creates_k_distinct_approved_questions_witness :
    ∃ sess : TestSession,
      startSession demoState 7 1 2 600 0 [0, 2] =
        ({ demoState with sessions := demoState.sessions ++ [sess]
                          nextSessionId := demoState.nextSessionId + 1 },
         .ok sess) ∧
      sess.questionIds.length = 2 ∧
      sess.questionIds.Nodup ∧
      (∀ qid ∈ sess.questionIds, ∃ q ∈ demoState.questions,
        q.id = qid ∧ q.status = "approved" ∧ q.courseId = 1) ∧
      sess.score = none ∧ sess.endTime = none :=
  start_creates_k_distinct_approved_questions demoState 7 1 2 600 0 [0, 2]
    (by decide) (by decide) (by decide) (by decide) (by decide) (by decide)
    (by decide)

/-- Claim C4: requesting more questions than the course has approved
fails with the insufficient-questions error (HTTP 400) and returns the
store unchanged: no session is created. -/
theorem start_insufficient_creates_no_session
    (st : State) (uid cid k duration now : Nat) (idxs : List Nat)
    (hcourse : st.courses.any (fun c => c.id == cid) = true)
    (hkN : (approvedQuestions st cid).length < k) :
    startSession st uid cid k duration now idxs =
      (st, .error .insufficientQuestions) := by
  simp only [startSession, hcourse, if_true]
  rw [if_pos hkN]

/-- Concrete run of the C4 theorem: requesting four questions from the
demo course, which has three approved ones. -/
theorem start_insufficient_creates_no_session_witness :
    startSession demoState 7 1 4 600 0 [0, 1, 2, 3] =
      (demoState, .error .insufficientQuestions) :=
  start_insufficient_creates_no_session demoState 7 1 4 600 0 [0, 1, 2, 3]
    (by decide) (by decide)

/-- Updating the session whose id matches leaves that updated record as
the one the id lookup finds afterwards. -/
theorem find?_update_self {l : List TestSession} {sid : Nat}
    {s' : TestSession} (hmem : ∃ t ∈ l, t.id = sid) (hid : s'.id = sid) :
    (l.map fun t => if t.id == sid then s' else t).find?
      (fun t => t.id == sid) = some s' := by
  induction l with
  | nil =>
    rcases hmem with ⟨t, ht, _⟩
    cases ht
  | cons x xs ih =>
    by_cases hx : x.id = sid
    · rw [List.map_cons, if_pos (by rw [hx]; exact beq_self_eq_true sid)]
      exact List.find?_cons_of_pos _ (by rw [hid]; exact beq_self_eq_true sid)
    · rcases hmem with ⟨t, ht, htid⟩
      rcases List.mem_cons.mp ht with h1 | h2
      · exact absurd (h1 ▸ htid) hx
      · rw [List.map_cons, if_neg (by simpa using hx)]
        rw [List.find?_cons_of_neg _ (by simpa using hx)]
        exact ih ⟨t, h2, htid⟩

/-- Counterexample to claim C5 as stated: in the demo store, session 5
exists and belongs to user 7, yet a submit by user 8 yields HTTP 404,
not the claimed 403, because the view resolves the session with
get_object_or_404 filtered by both id and owner. -/
theorem submit_wrong_owner_counterexample :
    (demoSession ∈ demoState.sessions ∧ demoSession.id = 5 ∧
      demoSession.userId ≠ 8) ∧
    submitHttpStatus (submitSession demoState 5 8 [] 0).2 = 404 ∧
    submitHttpStatus (submitSession demoState 5 8 [] 0).2 ≠ 403 := by
  decide

/-- Claim C5 amended: a submit by an authenticated user who does not own
the session fails with HTTP 404 (the same not-found outcome as an
unknown session id, not a distinct 403) and leaves the store, hence the
session, entirely unchanged. -/
theorem submit_wrong_owner_404_no_mutation
    (st : State) (uid : Nat) (answers : List (Nat × String)) (now : Nat)
    (s : TestSession)
    (hnd : (st.sessions.map (fun t => t.id)).Nodup)
    (hs : s ∈ st.sessions) (hu : uid ≠ s.userId) :
    submitSession st s.id uid answers now = (st, .error .notFound) ∧
    submitHttpStatus (submitSession st s.id uid answers now).2 = 404 := by
  have hfind : st.sessions.find?
      (fun t => t.id == s.id && t.userId == uid) = none := by
    rw [List.find?_eq_none]
    intro t ht hp
    rw [Bool.and_eq_true, beq_iff_eq, beq_iff_eq] at hp
    have hts : t = s := List.inj_on_of_nodup_map hnd ht hs hp.1
    exact hu ((hts ▸ hp.2).symm)
  constructor
  · simp only [submitSession, hfind]
  · simp only [submitSession, hfind, submitHttpStatus]

/-- Concrete run of the amended C5 theorem on the demo store. -/
theorem submit_wrong_owner_404_no_mutation_witness :
    submitSession demoState demoSession.id 8 [] 0 =
      (demoState, .error .notFound) ∧
    submitHttpStatus (submitSession demoState demoSession.id 8 [] 0).2 = 404 :=
  submit_wrong_owner_404_no_mutation demoState 8 [] 0 demoSession
    (by decide) (by decide) (by decide)

/-- Counterexample to claim C6 as stated: in the demo store, a first
submit stores score 1 and end time 100; a second submit with an empty
answer map changes the stored score to 0 and the stored end time to 200,
so a later submit does change the stored score and end time. -/
theorem submit_not_write_once_counterexample :
    ((submitSession demoState 5 7 [(10, "a")] 100).1.sessions.map
      (fun t => (t.score, t.endTime))) = [(some 1, some 100)] ∧
    ((submitSession (submitSession demoState 5 7 [(10, "a")] 100).1
        5 7 [] 200).1.sessions.map
      (fun t => (t.score, t.endTime))) = [(some 0, some 200)] := by
  decide

/-- Claim C6 amended: the score is not write-once: every owner submit,
also on a session whose score is already set, overwrites the stored
score with the freshly computed count and the stored end time with the
current clock — the last submission wins. -/
theorem submit_overwrites_previous_score
    (st : State) (sid uid now prev : Nat) (answers : List (Nat × String))
    (s : TestSession)
    (hfind : st.sessions.find?
      (fun t => t.id == sid && t.userId == uid) = some s)
    (hprev : s.score = some prev) :
    (submitSession st sid uid answers now).2 =
      .ok { s with score := some (computeScore st s answers)
                   endTime := some now } ∧
    (submitSession st sid uid answers now).1.sessions.find?
        (fun t => t.id == s.id) =
      some { s with score := some (computeScore st s answers)
                    endTime := some now } := by
  refine ⟨by simp only [submitSession, hfind], ?_⟩
  simp only [submitSession, hfind]
  exact find?_update_self
    ⟨s, List.mem_of_find?_eq_some hfind, rfl⟩ rfl

/-- Concrete run of the amended C6 theorem: the second submit on the
already-submitted demo session overwrites score and end time. -/
theorem submit_overwrites_previous_score_witness :
    ((submitSession (submitSession demoState 5 7 [(10, "a")] 100).1
        5 7 [] 200).2 =
      .ok { id := 5, userId := 7, courseId := 1, questionIds := [10, 11, 12]
            questionCount := 3, startTime := 0, endTime := some 200
            duration := 600, score := some 0 }) := by
  have h := submit_overwrites_previous_score
    (submitSession demoState 5 7 [(10, "a")] 100).1 5 7 200 1 []
    { id := 5, userId := 7, courseId := 1, questionIds := [10, 11, 12]
      questionCount := 3, startTime := 0, endTime := some 100
      duration := 600, score := some 1 }
    (by decide) (by decide)
  rw [h.1]
  rfl

/-- Claim C7: the snapshot frozen into each session never changes after
creation. Adding a question and approving or rejecting a question touch
only the question table and leave the session rows untouched, and a
submit rewrites only score and end_time, leaving every session row with
exactly the question-id snapshot it had (grading itself reads only that
snapshot: computeScore runs over sessionQuestions of the frozen id
list). -/
theorem session_snapshots_frozen
    (st : State) (q : Question) (qid : Nat) (newStatus : String)
    (sid uid now : Nat) (answers : List (Nat × String))
    (hnd : (st.sessions.map (fun t => t.id)).Nodup) :
    (addQuestion st q).sessions = st.sessions ∧
    (setQuestionStatus st qid newStatus).1.sessions = st.sessions ∧
    (submitSession st sid uid answers now).1.sessions.map
        (fun t => t.questionIds) =
      st.sessions.map (fun t => t.questionIds) := by
  refine ⟨rfl, ?_, ?_⟩
  · unfold setQuestionStatus
    split
    · split
      · rfl
      · rfl
    · rfl
  · cases hfind : st.sessions.find? (fun t => t.id == sid && t.userId == uid) with
    | none => simp only [submitSession, hfind]
    | some s =>
      simp only [submitSession, hfind]
      rw [List.map_map]
      apply List.map_congr_left
      intro t ht
      by_cases hid : t.id = s.id
      · have hts : t = s :=
          List.inj_on_of_nodup_map hnd ht
            (List.mem_of_find?_eq_some hfind) hid
        simp [Function.comp, hid, hts]
      · simp [Function.comp, hid]

/-- Concrete run of the C7 theorem on the demo store: a pending upload,
a rejection of a frozen question, and a submit all leave the frozen
snapshot of session 5 intact. -/
theorem session_snapshots_frozen_witness :
    (addQuestion demoState (demoQuestion 13 1 "A" "pending")).sessions =
      demoState.sessions ∧
    (setQuestionStatus demoState 10 "rejected").1.sessions =
      demoState.sessions ∧
    (submitSession demoState 5 7 [(10, "a")] 100).1.sessions.map
        (fun t => t.questionIds) =
      demoState.sessions.map (fun t => t.questionIds) :=
  session_snapshots_frozen demoState (demoQuestion 13 1 "A" "pending")
    10 "rejected" 5 7 100 [(10, "a")] (by decide)

/-- Claim C2 evaluated at a failing input (the code contradicts the
spec here): starting a one-question session in the demo store returns a
payload whose nested question record carries the pair
(correct_option, A) — TestSessionSerializer nests a QuestionSerializer
declared with all Question columns, so the correct option reaches the
test-taker, while the group-test path builds its question dictionaries
without it. -/
theorem start_payload_exposes_correct_option :
    (startResponse demoState 7 1 1 600 0 [0]).map (fun p => p.questions) =
      .ok [serializeQuestion (demoQuestion 10 1 "A" "approved")] ∧
    ("correct_option", "A") ∈ serializeQuestion (demoQuestion 10 1 "A" "approved") := by
  refine ⟨rfl, ?_⟩
  simp [serializeQuestion, demoQuestion]

/-- Claim C8: before the scheduled start the group-test read returns an
empty question list and creates nothing; at or after it, with the same
random draw, it produces exactly the store a plain session start with
the course, question count and duration (minutes times sixty) of the
template would produce, and returns the sampled questions together with
the id of the session just created. -/
theorem group_test_materializes_like_start
    (st : State) (gt : GroupTest) (uid now : Nat) (idxs : List Nat) :
    (now < gt.scheduledStart →
      groupTestGet st gt uid now idxs =
        (st, .ok { questions := [], sessionId := none })) ∧
    (gt.scheduledStart ≤ now →
      idxs.length = gt.questionCount →
      (∀ i ∈ idxs, i < (approvedQuestions st gt.courseId).length) →
      st.courses.any (fun c => c.id == gt.courseId) = true →
      (groupTestGet st gt uid now idxs).1 =
        (startSession st uid gt.courseId gt.questionCount
          (gt.durationMinutes * 60) now idxs).1 ∧
      (groupTestGet st gt uid now idxs).2 =
        (startSession st uid gt.courseId gt.questionCount
          (gt.durationMinutes * 60) now idxs).2.map (fun sess =>
          { questions := (randSample (approvedQuestions st gt.courseId)
              idxs).map serializeGroupQuestion
            sessionId := some sess.id })) := by
  constructor
  · intro hsched
    simp only [groupTestGet]
    rw [if_neg (by omega)]
  · intro hsched hlen hbound hcourse
    have hchlen : (randSample (approvedQuestions st gt.courseId) idxs).length =
        gt.questionCount := by
      rw [randSample_length hbound, hlen]
    by_cases hN : (approvedQuestions st gt.courseId).length < gt.questionCount
    · constructor
      · simp only [groupTestGet, startSession, hcourse, if_true]
        rw [if_pos hsched, if_pos hN, if_pos hN]
      · simp only [groupTestGet, startSession, hcourse, if_true]
        rw [if_pos hsched, if_pos hN, if_pos hN]
        rfl
    · constructor
      · simp only [groupTestGet, startSession, hcourse, if_true]
        rw [if_pos hsched, if_neg hN, if_neg hN]
        simp [hchlen]
      · simp only [groupTestGet, startSession, hcourse, if_true]
        rw [if_pos hsched, if_neg hN, if_neg hN]
        simp [Except.map]

/-- Concrete run of the C8 theorem on the demo store, with a template
scheduled at time 50: a read at time 10 yields no questions and no
session, and a read at time 50 materializes exactly what a plain start
would. -/
theorem group_test_materializes_like_start_witness :
    (groupTestGet demoState
        { id := 1, name := "g", courseId := 1, questionCount := 2
          durationMinutes := 10, scheduledStart := 50 } 7 10 [0, 1] =
      (demoState, .ok { questions := [], sessionId := none })) ∧
    ((groupTestGet demoState
        { id := 1, name := "g", courseId := 1, questionCount := 2
          durationMinutes := 10, scheduledStart := 50 } 7 50 [0, 1]).1 =
      (startSession demoState 7 1 2 600 50 [0, 1]).1) := by
  constructor
  · exact (group_test_materializes_like_start demoState
      { id := 1, name := "g", courseId := 1, questionCount := 2
        durationMinutes := 10, scheduledStart := 50 } 7 10 [0, 1]).1
      (by decide)
  · exact ((group_test_materializes_like_start demoState
      { id := 1, name := "g", courseId := 1, questionCount := 2
        durationMinutes := 10, scheduledStart := 50 } 7 50 [0, 1]).2
      (by decide) (by decide) (by decide) (by decide)).1

/-- Insertion keeps exactly the inserted entry and the old entries. -/
theorem mem_insertDesc {e x : LBEntry} {l : List LBEntry}
    (h : x ∈ insertDesc e l) : x = e ∨ x ∈ l := by
  induction l with
  | nil => simpa [insertDesc] using h
  | cons y ys ih =>
    unfold insertDesc at h
    by_cases hc : avgLe y.avgScore e.avgScore
    · rw [if_pos hc] at h
      rcases List.mem_cons.mp h with h1 | h2
      · exact .inl h1
      · exact .inr h2
    · rw [if_neg hc] at h
      rcases List.mem_cons.mp h with h1 | h2
      · exact .inr (List.mem_cons.mpr (.inl h1))
      · rcases ih h2 with h3 | h4
        · exact .inl h3
        · exact .inr (List.mem_cons.mpr (.inr h4))

/-- Sorting never introduces entries. -/
theorem mem_sortDesc {x : LBEntry} {l : List LBEntry}
    (h : x ∈ sortDesc l) : x ∈ l := by
  induction l with
  | nil => exact absurd h (by simp [sortDesc])
  | cons y ys ih =>
    unfold sortDesc at h
    rcases mem_insertDesc h with h1 | h2
    · simp [h1]
    · exact List.mem_cons.mpr (.inr (ih h2))

/-- Claim C9: every entry of the leaderboard response and every user of
the ranked list has a non-NULL, positive total question count — the
filter on the shared queryset excludes the zero-divisor users — and the
displayed average is exactly total_score times 100 over that positive
total (NULL-propagating when no session of the user has a score yet). -/
theorem leaderboard_excludes_zero_totals
    (st : State) (userIds : List Nat) :
    (∀ e ∈ leaderboard st userIds,
      ∃ tq, totalQuestionsOf st e.userId = some tq ∧ 0 < tq ∧
        e.avgScore = (totalScoreOf st e.userId).map
          (fun ts => (ts : ℚ) * 100 / (tq : ℚ))) ∧
    (∀ u ∈ rankedUserIds st userIds,
      ∃ tq, totalQuestionsOf st u = some tq ∧ 0 < tq) := by
  have hmem : ∀ u ∈ eligibleUsers st userIds,
      ∃ tq, totalQuestionsOf st u = some tq ∧ 0 < tq := by
    intro u hu
    rcases List.mem_filter.mp hu with ⟨_, hp⟩
    rcases htq : totalQuestionsOf st u with _ | n
    · rw [htq] at hp
      cases hp
    · rw [htq] at hp
      exact ⟨n, rfl, of_decide_eq_true hp⟩
  constructor
  · intro e he
    have he2 := mem_sortDesc (List.take_subset 10 _ he)
    rcases List.mem_map.mp he2 with ⟨u, hu, hform⟩
    rcases hmem u hu with ⟨tq, htq, hpos⟩
    refine ⟨tq, by rw [← hform]; exact htq, hpos, ?_⟩
    rw [← hform]
    simp only [avgScoreOf, htq]
    rcases totalScoreOf st u with _ | ts
    · rfl
    · rfl
  · intro u hu
    rcases List.mem_map.mp hu with ⟨e, he, hform⟩
    have he2 := mem_sortDesc he
    rcases List.mem_map.mp he2 with ⟨v, hv, hform2⟩
    rcases hmem v hv with ⟨tq, htq, hpos⟩
    refine ⟨tq, ?_, hpos⟩
    rw [← hform, ← hform2]
    exact htq

/-- Concrete run of the C9 theorem: user 7 of the demo store has one
session of three questions and an unset score, so appears with a
positive total and a NULL average, while a user with no sessions does
not appear. -/
theorem leaderboard_excludes_zero_totals_witness :
    (∀ e ∈ leaderboard demoState [7, 8],
      ∃ tq, totalQuestionsOf demoState e.userId = some tq ∧ 0 < tq ∧
        e.avgScore = (totalScoreOf demoState e.userId).map
          (fun ts => (ts : ℚ) * 100 / (tq : ℚ))) ∧
    (∀ u ∈ rankedUserIds demoState [7, 8],
      ∃ tq, totalQuestionsOf demoState u = some tq ∧ 0 < tq) :=
  leaderboard_excludes_zero_totals demoState [7, 8]

/-- The id lookup of a session with pairwise distinct ids finds exactly
that session. -/
theorem find?_id_self {l : List TestSession} {s : TestSession}
    (hnd : (l.map (fun t => t.id)).Nodup) (hs : s ∈ l) :
    l.find? (fun t => t.id == s.id) = some s := by
  induction l with
  | nil => cases hs
  | cons x xs ih =>
    have hnd' : (x.id :: xs.map (fun t => t.id)).Nodup := by
      simpa only [List.map_cons] using hnd
    have hnd2 := List.nodup_cons.mp hnd'
    rcases List.mem_cons.mp hs with h1 | h2
    · subst h1
      exact List.find?_cons_of_pos _ (beq_self_eq_true _)
    · by_cases hx : x.id = s.id
      · exfalso
        exact hnd2.1 (hx ▸ List.mem_map.mpr ⟨s, h2, rfl⟩)
      · rw [List.find?_cons_of_neg _ (by simpa using hx)]
        exact ih hnd2.2 h2

/-- Claim C10: the session-detail read returns the full serialized
session for any authenticated requesting user — the lookup ignores the
requesting user entirely, so no ownership precondition exists on this
path — and the serialized form of each nested question carries its
correct_option field. -/
theorem session_detail_ignores_ownership
    (st : State) (s : TestSession) (uid : Nat)
    (hnd : (st.sessions.map (fun t => t.id)).Nodup)
    (hs : s ∈ st.sessions) :
    sessionDetail st s.id uid = .ok (serializeSession st s) ∧
    (∀ q ∈ sessionQuestions st s,
      ("correct_option", q.correctOption) ∈ serializeQuestion q) := by
  constructor
  · unfold sessionDetail
    rw [find?_id_self hnd hs]
  · intro q _
    simp [serializeQuestion]

/-- Concrete run of the C10 theorem: user 8, who does not own demo
session 5, receives its full payload, correct options included. -/
theorem session_detail_ignores_ownership_witness :
    sessionDetail demoState demoSession.id 8 =
      .ok (serializeSession demoState demoSession) ∧
    (∀ q ∈ sessionQuestions demoState demoSession,
      ("correct_option", q.correctOption) ∈ serializeQuestion q) :=
  session_detail_ignores_ownership demoState demoSession 8
    (by decide) (by decide)

end PetroX
